import Mathlib

/-!
Shallow embedding of the rivetkit Rust actor client
(`src/clients/rust/src`): protocol envelopes, the connection
supervisor's message paths (`action`, `send_msg`, `on_open`,
`on_message`), the remote manager's HTTP result handling and
WebSocket handshake assembly, and the SSE driver stub.
All definitions are translated from the source; `*_spec` definitions
restate the natural-language specification for refinement claims.
-/

set_option autoImplicit false

namespace Rivet

/-! ## Protocol envelopes (`protocol/to_server.rs`, `protocol/to_client.rs`) -/

/-- Byte strings (Rust `Vec<u8>`) are modelled as lists of naturals. -/
abbrev Bytes := List Nat

/-- `to_server::ActionRequest`. -/
structure ActionRequest where
  id : Nat
  name : String
  args : Bytes
  deriving DecidableEq, Repr

/-- `to_server::SubscriptionRequest`. -/
structure SubscriptionRequest where
  event_name : String
  subscribe : Bool
  deriving DecidableEq, Repr

/-- `to_server::ToServerBody`. -/
inductive ToServerBody where
  | ActionRequest (ar : ActionRequest)
  | SubscriptionRequest (sr : SubscriptionRequest)
  deriving DecidableEq, Repr

/-- `to_server::ToServer`. -/
structure ToServer where
  body : ToServerBody
  deriving DecidableEq, Repr

/-- `to_client::Init`. -/
structure Init where
  actor_id : String
  connection_id : String
  connection_token : String
  deriving DecidableEq, Repr

/-- `to_client::Error`. -/
structure ErrorBody where
  group : String
  code : String
  message : String
  metadata : Option Bytes
  action_id : Option Nat
  deriving DecidableEq, Repr

/-- `to_client::ActionResponse`. -/
structure ActionResponse where
  id : Nat
  output : Bytes
  deriving DecidableEq, Repr

/-- `to_client::Event`. -/
structure Event where
  name : String
  args : Bytes
  deriving DecidableEq, Repr

/-- `to_client::ToClientBody`. -/
inductive ToClientBody where
  | Init (i : Init)
  | Error (e : ErrorBody)
  | ActionResponse (ar : ActionResponse)
  | Event (ev : Event)
  deriving DecidableEq, Repr

/-! ## RPC id allocation (`connection.rs`, `ActorConnectionInner::action`)

`action` allocates `id = self.rpc_counter.fetch_add(1, Ordering::SeqCst)`.
The counter is an `AtomicU64` starting at `0`; `fetch_add` returns the
previous value and stores the sum with wrapping (two's-complement)
semantics, i.e. modulo `2^64`. -/

/-- Modulus of Rust's `u64`. -/
def u64Mod : Nat := 2 ^ 64

/-- One `fetch_add(1)` step of `rpc_counter`: the stored value after the
call, with `u64` wrapping. -/
def rpcCounterStep (c : Nat) : Nat := (c + 1) % u64Mod

/-- Value of `rpc_counter` before the `n`-th (0-indexed) `action` call on a
supervisor whose counter started at `AtomicU64::new(0)`; this is exactly
the `id` that `fetch_add` returns for that call. -/
def rpcCounterAt : Nat → Nat
  | 0 => 0
  | n + 1 => rpcCounterStep (rpcCounterAt n)

/-- The `id` field placed in the `ActionRequest` emitted by the `n`-th
(0-indexed) `action()` call. -/
def actionIdOfCall (n : Nat) : Nat := rpcCounterAt n

/-- The full `ToServer` envelope built by the `n`-th `action()` call
(`connection.rs` lines 296–308). -/
def actionMsgOfCall (n : Nat) (method : String) (args_cbor : Bytes) : ToServer :=
  { body := ToServerBody.ActionRequest
      { id := actionIdOfCall n, name := method, args := args_cbor } }

theorem rpcCounterAt_eq_mod (n : Nat) : rpcCounterAt n = n % u64Mod := by
  induction n with
  | zero => rfl
  | succ n ih =>
    have hpos : 1 < u64Mod := by
      simp only [u64Mod]
      exact Nat.one_lt_two_pow (by omega)
    calc rpcCounterAt (n + 1) = (rpcCounterAt n + 1) % u64Mod := rfl
      _ = (n % u64Mod + 1 % u64Mod) % u64Mod := by
          rw [ih, Nat.mod_eq_of_lt hpos]
      _ = (n + 1) % u64Mod := (Nat.add_mod n 1 u64Mod).symm

/-! ## Outbound send path (`connection.rs`, `ActorConnectionInner::send_msg`)

The driver slot `driver: Mutex<Option<DriverHandle>>` is modelled as
`Option (ToServer → Bool)`: `none` when detached, `some send` when a
driver is attached, where `send msg` tells whether `driver.send(msg)`
returns `Ok`.  The outbound queue `msg_queue: Mutex<Vec<...>>` is a list
with `push` appending at the end. -/

/-- A driver slot: `none` = detached, `some send` = attached driver whose
`send` accepts exactly the messages on which `send` returns `true`. -/
abbrev DriverSlot := Option (ToServer → Bool)

/-- Result of one `send_msg` call: whether the message went out on the
driver, and the resulting outbound queue. -/
structure SendMsgResult where
  sent : Bool
  msg_queue : List ToServer

/-- `ActorConnectionInner::send_msg` (`connection.rs` lines 264–285):
try an immediate send when a driver is attached; on detachment or a
failed send, push onto the queue iff `ephemeral` is `false`. -/
def send_msg (driver : DriverSlot) (queue : List ToServer) (msg : ToServer)
    (ephemeral : Bool) : SendMsgResult :=
  match driver with
  | some send =>
      if send msg then { sent := true, msg_queue := queue }
      else if ephemeral = false then { sent := false, msg_queue := queue ++ [msg] }
      else { sent := false, msg_queue := queue }
  | none =>
      if ephemeral = false then { sent := false, msg_queue := queue ++ [msg] }
      else { sent := false, msg_queue := queue }

/-! ## `on_open` (`connection.rs` lines 188–206)

On `Init` the supervisor stores the resumption triple, sends one
`SubscriptionRequest(subscribe=true)` per subscribed event name
(ephemeral, via `send_subscription`), then drains the outbound queue,
passing each drained message to `send_msg` with default (non-ephemeral)
options. -/

/-- The `ToServer` envelope built by `send_subscription`
(`connection.rs` lines 341–354). -/
def subscriptionMsg (event_name : String) (subscribe : Bool) : ToServer :=
  { body := ToServerBody.SubscriptionRequest
      { event_name := event_name, subscribe := subscribe } }

/-- The resubscription loop of `on_open`: one ephemeral
`send_subscription(name, true)` per event name in the subscription map;
a failed ephemeral send is dropped without touching the queue.  Returns
the messages the driver accepted, in order. -/
def resubscribeAll (send : ToServer → Bool) : List String → List ToServer
  | [] => []
  | n :: ns =>
      if send (subscriptionMsg n true) then
        subscriptionMsg n true :: resubscribeAll send ns
      else
        resubscribeAll send ns

/-- The queue-flush loop of `on_open`: every drained message goes through
`send_msg` with non-ephemeral options against the attached driver, so an
accepted message is emitted and a rejected one is queued again.  Returns
`(emitted messages, resulting queue)`, both in original order. -/
def drainQueue (send : ToServer → Bool) : List ToServer → List ToServer × List ToServer
  | [] => ([], [])
  | m :: ms =>
      let rest := drainQueue send ms
      if send m then (m :: rest.1, rest.2) else (rest.1, m :: rest.2)

/-- The resumption triple `{actor_id, connection_id, connection_token}`
kept by the supervisor for reconnection. -/
structure ConnTriple where
  actor_id : Option String
  connection_id : Option String
  connection_token : Option String
  deriving DecidableEq, Repr

/-- Result of `on_open`: the stored triple, the messages emitted on the
driver in order, and the outbound queue afterwards. -/
structure OnOpenResult where
  triple : ConnTriple
  emitted : List ToServer
  msg_queue : List ToServer

/-- `ActorConnectionInner::on_open` (`connection.rs` lines 188–206),
relative to an attached driver `send`, the current subscription-map key
list `subNames`, and the current outbound queue. -/
def on_open (send : ToServer → Bool) (subNames : List String)
    (queue : List ToServer) (init : Init) : OnOpenResult :=
  { triple :=
      { actor_id := some init.actor_id
        connection_id := some init.connection_id
        connection_token := some init.connection_token }
    emitted := resubscribeAll send subNames ++ (drainQueue send queue).1
    msg_queue := (drainQueue send queue).2 }

/-! ## In-flight RPC map and `on_message` error dispatch
(`connection.rs` lines 244–260)

`in_flight_rpcs: Mutex<HashMap<u64, oneshot::Sender<RpcResponse>>>` is
modelled as an association list with distinct keys; `HashMap::remove`
removes the entry with the given key. -/

/-- An in-flight RPC map: association list from request id to the waiter
(one-shot sender), keys distinct. -/
abbrev InFlightMap (W : Type) := List (Nat × W)

/-- `HashMap::remove k`: drop the (unique) entry keyed `k`. -/
def removeKey {W : Type} (k : Nat) : InFlightMap W → InFlightMap W
  | [] => []
  | (k', w) :: rest => if k' = k then rest else (k', w) :: removeKey k rest

/-- `HashMap::get`-style lookup of the first entry keyed `k`. -/
def lookupKey {W : Type} (k : Nat) : InFlightMap W → Option W
  | [] => none
  | (k', w) :: rest => if k' = k then some w else lookupKey k rest

/-- Effect of the `ToClientBody::Error` arm of
`ActorConnectionInner::on_message` on the in-flight map: with
`action_id = Some(id)` the waiter keyed `id` is removed and fulfilled
with failure (`tx.send(Err(e))`); with `action_id = None` (or no waiter
under `id`) the map is untouched.  Returns the new map and the fulfilled
waiter, if any, paired with the error it was fulfilled with. -/
def on_message_error {W : Type} (e : ErrorBody) (m : InFlightMap W) :
    InFlightMap W × Option (W × ErrorBody) :=
  match e.action_id with
  | some action_id =>
      match lookupKey action_id m with
      | none => (m, none)
      | some tx => (removeKey action_id m, some (tx, e))
  | none => (m, none)

/-- Effect of the `ToClientBody::ActionResponse` arm of `on_message`:
the waiter keyed `ar.id` is removed and fulfilled with success; an
unknown id leaves the map untouched. -/
def on_message_action_response {W : Type} (ar : ActionResponse) (m : InFlightMap W) :
    InFlightMap W × Option (W × ActionResponse) :=
  match lookupKey ar.id m with
  | none => (m, none)
  | some tx => (removeKey ar.id m, some (tx, ar))

/-! ## `action` result handling (`connection.rs` lines 310–338)

`rx.await` yields `Err` when the one-shot sender was dropped, else the
`RpcResponse = Result<ActionResponse, to_client::Error>`.  CBOR decoding
(`serde_cbor::from_slice`) and serde_json's alternate (`{:#}`, pretty)
rendering of a JSON value are abstracted as function parameters. -/

/-- JSON values (`serde_json::Value`). -/
inductive Value where
  | null
  | bool (b : Bool)
  | num (n : Int)
  | str (s : String)
  | arr (elems : List Value)
  | obj (fields : List (String × Value))

/-- Metadata resolution in the `Err` arm of `action`: decode the CBOR
metadata bytes when present, falling back to `Value::Null` when the
field is absent or does not decode. -/
def metadataValue (dec : Bytes → Except String Value) : Option Bytes → Value
  | some md =>
      match dec md with
      | Except.ok v => v
      | Except.error _ => Value.null
  | none => Value.null

/-- The string built by
`anyhow!("RPC Error({}/{}): {}, {:#}", group, code, message, metadata)`. -/
def formatRpcError (group code message pretty_metadata : String) : String :=
  "RPC Error(" ++ group ++ "/" ++ code ++ "): " ++ message ++ ", " ++ pretty_metadata

/-- The tail of `ActorConnectionInner::action` after `rx.await`
(`connection.rs` lines 310–338): `none` models a dropped one-shot
sender; `dec` models `serde_cbor::from_slice`; `pretty` models the
alternate `Display` of `serde_json::Value`. -/
def action_await (dec : Bytes → Except String Value) (pretty : Value → String) :
    Option (Except ErrorBody ActionResponse) → Except String Value
  | none => Except.error "Socket closed during rpc"
  | some (Except.ok ok) => dec ok.output
  | some (Except.error err) =>
      Except.error
        (formatRpcError err.group err.code err.message
          (pretty (metadataValue dec err.metadata)))

/-! ## Remote manager HTTP result handling (`remote_manager.rs`)

The HTTP layer is abstracted to the response's numeric status code and
the parse result of its JSON body (`none` models a `res.json()` failure,
whose error message is not modelled).  `reqwest::StatusCode::is_success`
holds exactly for 2xx codes; its `Display` is abbreviated to the numeric
code. -/

/-- An entry of the `actors` list in control-plane responses
(`remote_manager.rs` `struct Actor`). -/
structure Actor where
  actor_id : String
  name : String
  key : String
  deriving DecidableEq, Repr

/-- `reqwest::StatusCode::is_success`: 2xx. -/
def statusIsSuccess (status : Nat) : Bool := 200 ≤ status && status < 300

/-- Result handling of `RemoteManager::get_for_id`
(`remote_manager.rs` lines 72–99): non-success status is an error; then
the first actor's id is returned only when its `name` matches exactly. -/
def get_for_id (name : String) (status : Nat) (body : Option (List Actor)) :
    Except String (Option String) :=
  if statusIsSuccess status = false then
    Except.error ("failed to get actor: " ++ toString status)
  else
    match body with
    | none => Except.error "failed to decode actors list response"
    | some actors =>
        match actors.head? with
        | some actor =>
            if actor.name = name then Except.ok (some actor.actor_id)
            else Except.ok none
        | none => Except.ok none

/-- Result handling of `RemoteManager::get_with_key`
(`remote_manager.rs` lines 101–128): 404 maps to `Ok(None)`, any other
non-success status to an error; on 2xx the first actor's id is returned
without any name check. -/
def get_with_key (status : Nat) (body : Option (List Actor)) :
    Except String (Option String) :=
  if statusIsSuccess status = false then
    if status = 404 then Except.ok none
    else Except.error ("failed to get actor by key: " ++ toString status)
  else
    match body with
    | none => Except.error "failed to decode actors list response"
    | some actors =>
        match actors.head? with
        | some actor => Except.ok (some actor.actor_id)
        | none => Except.ok none

/-! ## WebSocket handshake assembly
(`remote_manager.rs`, `RemoteManager::open_websocket`, lines 275–327) -/

/-- `RemoteManager` configuration (endpoint and optional token). -/
structure RemoteManager where
  endpoint : String
  token : Option String
  deriving DecidableEq, Repr

/-- `common::EncodingKind`. -/
inductive EncodingKind where
  | Json
  | Cbor
  deriving DecidableEq, Repr

/-- `EncodingKind::as_str` (`common.rs`). -/
def EncodingKind.as_str : EncodingKind → String
  | EncodingKind.Json => "json"
  | EncodingKind.Cbor => "cbor"

/-- `common::PATH_CONNECT_WEBSOCKET`. -/
def PATH_CONNECT_WEBSOCKET : String := "/connect/websocket"

/-- `common::WS_PROTOCOL_STANDARD`. -/
def WS_PROTOCOL_STANDARD : String := "rivet"

/-- `common::WS_PROTOCOL_TARGET`. -/
def WS_PROTOCOL_TARGET : String := "rivet_target."

/-- `common::WS_PROTOCOL_ACTOR`. -/
def WS_PROTOCOL_ACTOR : String := "rivet_actor."

/-- `common::WS_PROTOCOL_ENCODING`. -/
def WS_PROTOCOL_ENCODING : String := "rivet_encoding."

/-- `common::WS_PROTOCOL_CONN_PARAMS`. -/
def WS_PROTOCOL_CONN_PARAMS : String := "rivet_conn_params."

/-- `common::WS_PROTOCOL_CONN_ID`. -/
def WS_PROTOCOL_CONN_ID : String := "rivet_conn."

/-- `common::WS_PROTOCOL_CONN_TOKEN`. -/
def WS_PROTOCOL_CONN_TOKEN : String := "rivet_conn_token."

/-- `common::WS_PROTOCOL_TOKEN`. -/
def WS_PROTOCOL_TOKEN : String := "rivet_token."

/-- Hex digit used by percent-encoding (uppercase, as in the
`urlencoding` crate). -/
def hexDigit (n : Nat) : Char :=
  if n < 10 then Char.ofNat (48 + n) else Char.ofNat (55 + n)

/-- Bytes left verbatim by `urlencoding::encode`: ASCII alphanumerics
and `-`, `.`, `_`, `~`. -/
def isUrlUnreservedByte (b : Nat) : Bool :=
  (65 ≤ b && b ≤ 90) || (97 ≤ b && b ≤ 122) || (48 ≤ b && b ≤ 57) ||
    b = 45 || b = 46 || b = 95 || b = 126

/-- Percent-encoding of one byte. -/
def encodeByte (b : Nat) : String :=
  if isUrlUnreservedByte b then String.singleton (Char.ofNat b)
  else "%" ++ String.singleton (hexDigit (b / 16)) ++ String.singleton (hexDigit (b % 16))

/-- `urlencoding::encode` over the UTF-8 bytes of a string. -/
def urlencode (s : String) : String :=
  String.join (s.toUTF8.toList.map fun b => encodeByte b.toNat)

/-- The outcome of `open_websocket` up to the actual network dial: the
resolved WebSocket URL, the subprotocol list in emission order, and the
single `Sec-WebSocket-Protocol` header value. -/
structure WsRequest where
  url : String
  protocols : List String
  protocolHeader : String
  deriving DecidableEq, Repr

/-- `RemoteManager::open_websocket` (`remote_manager.rs` lines 275–327)
up to the network dial.  `paramsJson` stands for
`serde_json::to_string(&params)` of the optional connection
parameters. -/
def open_websocket (rm : RemoteManager) (actor_id : String)
    (encoding : EncodingKind) (paramsJson : Option String)
    (conn_id conn_token : Option String) : Except String WsRequest :=
  if rm.endpoint.startsWith "https://" then
    Except.ok (mkWsRequest ("wss://" ++ rm.endpoint.drop 8 ++ PATH_CONNECT_WEBSOCKET)
      rm actor_id encoding paramsJson conn_id conn_token)
  else if rm.endpoint.startsWith "http://" then
    Except.ok (mkWsRequest ("ws://" ++ rm.endpoint.drop 7 ++ PATH_CONNECT_WEBSOCKET)
      rm actor_id encoding paramsJson conn_id conn_token)
  else
    Except.error "invalid endpoint URL"
where
  /-- Protocol-list and header construction shared by both URL schemes
  (`remote_manager.rs` lines 294–323). -/
  mkWsRequest (ws_url : String) (rm : RemoteManager) (actor_id : String)
      (encoding : EncodingKind) (paramsJson : Option String)
      (conn_id conn_token : Option String) : WsRequest :=
    let protocols : List String :=
      [WS_PROTOCOL_STANDARD,
       WS_PROTOCOL_TARGET ++ "actor",
       WS_PROTOCOL_ACTOR ++ actor_id,
       WS_PROTOCOL_ENCODING ++ encoding.as_str]
    let protocols := protocols ++
      (match rm.token with
       | some token => [WS_PROTOCOL_TOKEN ++ token]
       | none => [])
    let protocols := protocols ++
      (match paramsJson with
       | some p => [WS_PROTOCOL_CONN_PARAMS ++ urlencode p]
       | none => [])
    let protocols := protocols ++
      (match conn_id with
       | some cid => [WS_PROTOCOL_CONN_ID ++ cid]
       | none => [])
    let protocols := protocols ++
      (match conn_token with
       | some ct => [WS_PROTOCOL_CONN_TOKEN ++ ct]
       | none => [])
    { url := ws_url
      protocols := protocols
      protocolHeader := String.intercalate ", " protocols }

/-- Restatement of the specification's description of `open_websocket`
(spec §4.2/§8): scheme promotion `https→wss` / `http→ws` with path
`/connect/websocket`, otherwise the error "invalid endpoint URL";
subprotocols in the order `rivet`, `rivet_target.actor`,
`rivet_actor.<id>`, `rivet_encoding.<json|cbor>`, then optionally
`rivet_token.<t>`, `rivet_conn_params.<url-encoded json>`,
`rivet_conn.<id>`, `rivet_conn_token.<t>`, joined with ", " into one
header value. -/
def open_websocket_spec (rm : RemoteManager) (actor_id : String)
    (encoding : EncodingKind) (paramsJson : Option String)
    (conn_id conn_token : Option String) : Except String WsRequest :=
  let protocols : List String :=
    ["rivet", "rivet_target.actor", "rivet_actor." ++ actor_id,
     "rivet_encoding." ++ (match encoding with
                           | EncodingKind.Json => "json"
                           | EncodingKind.Cbor => "cbor")]
    ++ (rm.token.map (fun t => "rivet_token." ++ t)).toList
    ++ (paramsJson.map (fun p => "rivet_conn_params." ++ urlencode p)).toList
    ++ (conn_id.map (fun cid => "rivet_conn." ++ cid)).toList
    ++ (conn_token.map (fun ct => "rivet_conn_token." ++ ct)).toList
  if rm.endpoint.startsWith "https://" then
    Except.ok
      { url := "wss://" ++ rm.endpoint.drop 8 ++ "/connect/websocket"
        protocols := protocols
        protocolHeader := String.intercalate ", " protocols }
  else if rm.endpoint.startsWith "http://" then
    Except.ok
      { url := "ws://" ++ rm.endpoint.drop 7 ++ "/connect/websocket"
        protocols := protocols
        protocolHeader := String.intercalate ", " protocols }
  else
    Except.error "invalid endpoint URL"

/-! ## Drivers and `try_connect` failure mapping
(`drivers/sse.rs`; `connection.rs` lines 103–125) -/

/-- `DriverStopReason` (driver contract, spec §4.3). -/
inductive DriverStopReason where
  | UserAborted
  | ServerDisconnect
  | ServerError
  | TaskError
  deriving DecidableEq, Repr

/-- `ConnectionAttempt` (`connection.rs` lines 43–46). -/
structure ConnectionAttempt where
  did_open : Bool
  task_end_reason : DriverStopReason
  deriving DecidableEq, Repr

/-- `drivers::sse::connect` (`drivers/sse.rs` lines 5–11): fails
unconditionally, before any network activity, with the literal
`anyhow!` message from the source. -/
def sse_connect {A : Type} (_args : A) : Except String Unit :=
  Except.error "SSE transport not yet supported with gateway architecture"

/-- Failure arm of `ActorConnectionInner::try_connect` (`connection.rs`
lines 108–125): when `connect_driver` fails the attempt is reported as
`{did_open: false, task_end_reason: TaskError}`; `none` means the driver
connected and `try_connect` proceeds to its receive loop. -/
def try_connect_driver_failure {D : Type} (driverResult : Except String D) :
    Option ConnectionAttempt :=
  match driverResult with
  | Except.error _ =>
      some { did_open := false, task_end_reason := DriverStopReason.TaskError }
  | Except.ok _ => none

/-! ## Claim theorems -/

/-- C1 (counterexample): the `id` values emitted by `action()` are NOT
unique over every call sequence: the `rpc_counter` is an `AtomicU64`
whose `fetch_add(1)` wraps modulo `2^64`, so the call with index `2^64`
(a distinct, later call than call `0`) emits the same id `0` again. -/
theorem action_id_reused_after_u64_calls :
    actionIdOfCall (2 ^ 64) = actionIdOfCall 0 ∧ (2 ^ 64 : Nat) ≠ 0 := by
  constructor
  · show rpcCounterAt (2 ^ 64) = rpcCounterAt 0
    rw [rpcCounterAt_eq_mod, rpcCounterAt_eq_mod]
    simp [u64Mod]
  · decide

/-- C1 (amended): the first `action()` call emits id `0`, and across the
first `2^64` calls of a supervisor (before the `u64` counter wraps) the
emitted `ActionRequest.id` values are strictly increasing, hence unique
and never reused. -/
theorem action_ids_strictly_increasing_before_wrap :
    actionIdOfCall 0 = 0 ∧
    ∀ i j : Nat, i < j → j < 2 ^ 64 → actionIdOfCall i < actionIdOfCall j := by
  refine ⟨rfl, ?_⟩
  intro i j hij hj
  show rpcCounterAt i < rpcCounterAt j
  rw [rpcCounterAt_eq_mod, rpcCounterAt_eq_mod,
    Nat.mod_eq_of_lt (show i < u64Mod from lt_trans hij hj),
    Nat.mod_eq_of_lt (show j < u64Mod from hj)]
  exact hij

/-- Witness for C1 (amended) at calls `0 < 1 < 2^64`. -/
theorem action_ids_strictly_increasing_before_wrap_witness :
    actionIdOfCall 0 < actionIdOfCall 1 :=
  action_ids_strictly_increasing_before_wrap.2 0 1 (by decide) (by decide)

/-- C2: `send_msg` drops an ephemeral message (no queueing) whenever no
driver is attached or the driver send fails, and a non-ephemeral message
is either sent with the queue untouched or appended to the queue —
never both. -/
theorem send_msg_ephemeral_drop_and_exclusive_queueing
    (driver : DriverSlot) (q : List ToServer) (m : ToServer) :
    ((driver = none ∨ ∃ send, driver = some send ∧ send m = false) →
      (send_msg driver q m true).sent = false ∧
      (send_msg driver q m true).msg_queue = q) ∧
    (((send_msg driver q m false).sent = true ∧
        (send_msg driver q m false).msg_queue = q) ∨
      ((send_msg driver q m false).sent = false ∧
        (send_msg driver q m false).msg_queue = q ++ [m])) ∧
    ¬((send_msg driver q m false).sent = true ∧
      (send_msg driver q m false).msg_queue = q ++ [m]) := by
  refine ⟨?_, ?_, ?_⟩
  · rintro (rfl | ⟨send, rfl, hsend⟩)
    · exact ⟨rfl, rfl⟩
    · simp [send_msg, hsend]
  · cases driver with
    | none => right; simp [send_msg]
    | some send =>
      cases hs : send m with
      | true => left; simp [send_msg, hs]
      | false => right; simp [send_msg, hs]
  · cases driver with
    | none => simp [send_msg]
    | some send =>
      cases hs : send m with
      | true =>
        rintro ⟨-, hq⟩
        have := congrArg List.length hq
        simp [send_msg, hs] at this
      | false => simp [send_msg, hs]

/-- Witness for C2: a detached driver with an ephemeral message leaves
the queue untouched. -/
theorem send_msg_ephemeral_drop_witness :
    (send_msg none [] (subscriptionMsg "joined" true) true).sent = false ∧
    (send_msg none [] (subscriptionMsg "joined" true) true).msg_queue = [] :=
  (send_msg_ephemeral_drop_and_exclusive_queueing none []
    (subscriptionMsg "joined" true)).1 (Or.inl rfl)

/-- C9 (counterexample): the SSE driver's error is NOT the literal
`"SSE transport not yet supported"`; the source message reads
`"SSE transport not yet supported with gateway architecture"`. -/
theorem sse_error_message_differs :
    sse_connect (A := Unit) () ≠
      (Except.error "SSE transport not yet supported" : Except String Unit) := by
  intro h
  injection h with h'
  exact absurd h' (by decide)

/-- C9 (amended): for every connect attempt the SSE driver fails
immediately (before any network activity) with
`Err("SSE transport not yet supported with gateway architecture")`, and
`try_connect` maps this driver failure to
`{did_open = false, reason = TaskError}`. -/
theorem sse_connect_unsupported {A : Type} (args : A) :
    sse_connect args =
      Except.error "SSE transport not yet supported with gateway architecture" ∧
    try_connect_driver_failure (sse_connect args) =
      some { did_open := false, task_end_reason := DriverStopReason.TaskError } :=
  ⟨rfl, rfl⟩

/-- On a driver accepting every message, the resubscription loop emits
exactly one `SubscriptionRequest(subscribe=true)` per name, in order. -/
theorem resubscribeAll_of_accept (send : ToServer → Bool) (h : ∀ m, send m = true) :
    ∀ ns : List String,
      resubscribeAll send ns = ns.map (fun n => subscriptionMsg n true)
  | [] => rfl
  | n :: ns => by
    simp [resubscribeAll, h, resubscribeAll_of_accept send h ns]

/-- On a driver accepting every message, draining emits the whole queue
in order and leaves it empty. -/
theorem drainQueue_of_accept (send : ToServer → Bool) (h : ∀ m, send m = true) :
    ∀ q : List ToServer, drainQueue send q = (q, [])
  | [] => rfl
  | m :: ms => by
    simp [drainQueue, h, drainQueue_of_accept send h ms]

theorem subscriptionMsg_true_injective :
    Function.Injective (fun n => subscriptionMsg n true) := by
  intro a b h
  simpa [subscriptionMsg] using h

/-- C3: on receiving `Init`, `on_open` stores the triple
`{actor_id, connection_id, connection_token}`, sends exactly one
`SubscriptionRequest(subscribe=true)` per event name in the subscription
map, then drains the outbound queue in insertion order with
non-ephemeral semantics, so the queued messages go out (in insertion
order) before anything sent after `Init`, leaving the queue empty. -/
theorem on_open_stores_triple_resubscribes_and_flushes
    (send : ToServer → Bool) (subNames : List String)
    (queue : List ToServer) (init : Init)
    (hsend : ∀ m, send m = true) (hnodup : subNames.Nodup) :
    (on_open send subNames queue init).triple =
      { actor_id := some init.actor_id
        connection_id := some init.connection_id
        connection_token := some init.connection_token } ∧
    (on_open send subNames queue init).emitted =
      subNames.map (fun n => subscriptionMsg n true) ++ queue ∧
    (on_open send subNames queue init).msg_queue = [] ∧
    ∀ n ∈ subNames,
      (resubscribeAll send subNames).count (subscriptionMsg n true) = 1 := by
  refine ⟨rfl, ?_, ?_, ?_⟩
  · simp [on_open, resubscribeAll_of_accept send hsend,
      drainQueue_of_accept send hsend]
  · simp [on_open, drainQueue_of_accept send hsend]
  · intro n hn
    rw [resubscribeAll_of_accept send hsend,
      List.count_map_of_injective subNames (fun n => subscriptionMsg n true)
        subscriptionMsg_true_injective n]
    exact List.count_eq_one_of_mem hnodup hn

/-- Witness for C3: one subscription (`"joined"`) and one queued
`ActionRequest` on an all-accepting driver. -/
theorem on_open_stores_triple_resubscribes_and_flushes_witness :
    (on_open (fun _ => true) ["joined"] [actionMsgOfCall 0 "ping" []]
        ⟨"a1", "c1", "t1"⟩).triple = ⟨some "a1", some "c1", some "t1"⟩ ∧
    (on_open (fun _ => true) ["joined"] [actionMsgOfCall 0 "ping" []]
        ⟨"a1", "c1", "t1"⟩).emitted =
      [subscriptionMsg "joined" true, actionMsgOfCall 0 "ping" []] ∧
    (on_open (fun _ => true) ["joined"] [actionMsgOfCall 0 "ping" []]
        ⟨"a1", "c1", "t1"⟩).msg_queue = [] ∧
    (resubscribeAll (fun _ => true) ["joined"]).count
      (subscriptionMsg "joined" true) = 1 := by
  have h := on_open_stores_triple_resubscribes_and_flushes (fun _ => true)
    ["joined"] [actionMsgOfCall 0 "ping" []] ⟨"a1", "c1", "t1"⟩
    (fun _ => rfl) (by decide)
  exact ⟨h.1, h.2.1, h.2.2.1, h.2.2.2 "joined" (by decide)⟩

/-- A key absent from the association list looks up to `none`. -/
theorem lookupKey_eq_none_of_not_mem {W : Type} (k : Nat) :
    ∀ m : InFlightMap W, k ∉ m.map Prod.fst → lookupKey k m = none
  | [], _ => rfl
  | (k', w) :: rest, h => by
    simp only [List.map_cons, List.mem_cons, not_or] at h
    rw [lookupKey, if_neg (fun e => h.1 e.symm)]
    exact lookupKey_eq_none_of_not_mem k rest h.2

/-- `HashMap::remove id` does not disturb the binding of any other
key. -/
theorem lookupKey_removeKey_ne {W : Type} (id k : Nat) (hk : k ≠ id) :
    ∀ m : InFlightMap W, lookupKey k (removeKey id m) = lookupKey k m
  | [] => rfl
  | (k', w) :: rest => by
    by_cases h : k' = id
    · subst h
      simp [removeKey, lookupKey, Ne.symm hk]
    · by_cases hkk : k' = k
      · simp [removeKey, lookupKey, h, hkk, hk]
      · simp [removeKey, lookupKey, h, hkk,
          lookupKey_removeKey_ne id k hk rest]

/-- With distinct keys, the removed key no longer resolves. -/
theorem lookupKey_removeKey_self {W : Type} (id : Nat) :
    ∀ m : InFlightMap W, (m.map Prod.fst).Nodup →
      lookupKey id (removeKey id m) = none
  | [], _ => rfl
  | (k', w) :: rest, h => by
    rw [List.map_cons, List.nodup_cons] at h
    by_cases hk : k' = id
    · subst hk
      simp only [removeKey, if_pos rfl]
      exact lookupKey_eq_none_of_not_mem k' rest h.1
    · simp only [removeKey, if_neg hk]
      rw [lookupKey, if_neg hk]
      exact lookupKey_removeKey_self id rest h.2

/-- C5: an inbound `Error` with `action_id = None` leaves the in-flight
RPC map completely unchanged and fulfills nothing; an `Error` with
`action_id = Some id` removes and fulfills (with failure) only the
waiter keyed `id`, leaving every other entry's binding intact. -/
theorem on_message_error_targets_only_its_waiter {W : Type}
    (e : ErrorBody) (m : InFlightMap W) :
    (e.action_id = none → on_message_error e m = (m, none)) ∧
    (∀ id, e.action_id = some id → (m.map Prod.fst).Nodup →
      (∀ k, k ≠ id →
        lookupKey k (on_message_error e m).1 = lookupKey k m) ∧
      lookupKey id (on_message_error e m).1 = none ∧
      (on_message_error e m).2 = (lookupKey id m).map (fun tx => (tx, e))) := by
  constructor
  · intro h
    simp [on_message_error, h]
  · intro id hid hnodup
    simp only [on_message_error, hid]
    cases hl : lookupKey id m with
    | none => exact ⟨fun k _ => rfl, by simpa using hl, rfl⟩
    | some tx =>
      exact ⟨fun k hk => lookupKey_removeKey_ne id k hk m,
        lookupKey_removeKey_self id m hnodup, rfl⟩

/-- Witness for C5: error keyed `7` against the map
`[(7, "w7"), (3, "w3")]`: entry `3` keeps its binding, entry `7` is
gone, and waiter `"w7"` is the one fulfilled with the failure. -/
theorem on_message_error_targets_only_its_waiter_witness :
    lookupKey 3 (on_message_error (W := String)
      ⟨"g", "c", "boom", none, some 7⟩ [(7, "w7"), (3, "w3")]).1 = some "w3" ∧
    lookupKey 7 (on_message_error (W := String)
      ⟨"g", "c", "boom", none, some 7⟩ [(7, "w7"), (3, "w3")]).1 = none ∧
    (on_message_error (W := String)
      ⟨"g", "c", "boom", none, some 7⟩ [(7, "w7"), (3, "w3")]).2 =
      some ("w7", ⟨"g", "c", "boom", none, some 7⟩) := by
  have h := (on_message_error_targets_only_its_waiter (W := String)
    ⟨"g", "c", "boom", none, some 7⟩ [(7, "w7"), (3, "w3")]).2 7 rfl (by decide)
  refine ⟨?_, h.2.1, ?_⟩
  · rw [h.1 3 (by decide)]
    rfl
  · rw [h.2.2]
    rfl

/-- C4: when the server answers an `action` with an `Error` carrying its
id, `action` fails with exactly
`"RPC Error(<group>/<code>): <message>, <metadata-as-pretty-json>"`,
where the metadata value is `Null` when the field is absent or does not
decode from CBOR; when the waiter's one-shot sender is dropped without a
response, `action` fails with `"Socket closed during rpc"`. -/
theorem action_error_formatting
    (dec : Bytes → Except String Value) (pretty : Value → String)
    (err : ErrorBody) :
    action_await dec pretty (some (Except.error err)) =
      Except.error ("RPC Error(" ++ err.group ++ "/" ++ err.code ++ "): " ++
        err.message ++ ", " ++ pretty (metadataValue dec err.metadata)) ∧
    (err.metadata = none → metadataValue dec err.metadata = Value.null) ∧
    (∀ md msg, err.metadata = some md → dec md = Except.error msg →
      metadataValue dec err.metadata = Value.null) ∧
    action_await dec pretty none = Except.error "Socket closed during rpc" := by
  refine ⟨rfl, ?_, ?_, rfl⟩
  · intro h
    rw [h]
    rfl
  · intro md msg hmd hdec
    rw [hmd]
    simp [metadataValue, hdec]

/-- Witness for C4 with a CBOR decoder that always fails, so the
metadata renders as `Null`. -/
theorem action_error_formatting_witness :
    action_await (fun _ => Except.error "cbor") (fun _ => "null")
        (some (Except.error ⟨"grp", "cd", "boom", some [1], some 0⟩)) =
      Except.error "RPC Error(grp/cd): boom, null" ∧
    metadataValue (fun _ => Except.error "cbor") (some [1]) = Value.null ∧
    action_await (fun _ => Except.error "cbor") (fun _ => "null") none =
      Except.error "Socket closed during rpc" := by
  have h := action_error_formatting (fun _ => Except.error "cbor")
    (fun _ => "null") ⟨"grp", "cd", "boom", some [1], some 0⟩
  refine ⟨?_, h.2.2.1 [1] "cbor" rfl rfl, h.2.2.2⟩
  rw [h.1]
  rfl

/-- C6: `open_websocket` behaves exactly as specified: `https://` is
promoted to `wss://` and `http://` to `ws://` with path
`/connect/websocket`, any other endpoint fails with
"invalid endpoint URL", and the subprotocols are emitted in the
prescribed order (`rivet`, `rivet_target.actor`, `rivet_actor.<id>`,
`rivet_encoding.<json|cbor>`, then optional `rivet_token.<t>`,
`rivet_conn_params.<url-encoded json>`, `rivet_conn.<id>`,
`rivet_conn_token.<t>`) and joined with ", " into the single
`Sec-WebSocket-Protocol` header value. -/
theorem open_websocket_matches_spec (rm : RemoteManager) (actor_id : String)
    (encoding : EncodingKind) (paramsJson : Option String)
    (conn_id conn_token : Option String) :
    open_websocket rm actor_id encoding paramsJson conn_id conn_token =
      open_websocket_spec rm actor_id encoding paramsJson conn_id conn_token := by
  obtain ⟨endpoint, token⟩ := rm
  cases token <;> cases paramsJson <;> cases conn_id <;> cases conn_token <;> rfl

/-- C7: `get_with_key` maps HTTP 404 to `Ok(None)`, any other
non-success status to an error, and a 2xx response with an empty
`actors` list to `Ok(None)`. -/
theorem get_with_key_status_handling (status : Nat) (body : Option (List Actor)) :
    (status = 404 → get_with_key status body = Except.ok none) ∧
    (statusIsSuccess status = false → status ≠ 404 →
      ∃ msg, get_with_key status body = Except.error msg) ∧
    (statusIsSuccess status = true →
      get_with_key status (some []) = Except.ok none) := by
  refine ⟨?_, ?_, ?_⟩
  · intro h
    subst h
    rfl
  · intro hs h404
    exact ⟨"failed to get actor by key: " ++ toString status,
      by simp [get_with_key, hs, h404]⟩
  · intro hs
    simp [get_with_key, hs]

/-- Witness for C7 at statuses 404, 500 and 200. -/
theorem get_with_key_status_handling_witness :
    get_with_key 404 none = Except.ok none ∧
    (∃ msg, get_with_key 500 none = Except.error msg) ∧
    get_with_key 200 (some []) = Except.ok none :=
  ⟨(get_with_key_status_handling 404 none).1 rfl,
    (get_with_key_status_handling 500 none).2.1 (by decide) (by decide),
    (get_with_key_status_handling 200 (some [])).2.2 (by decide)⟩

/-- C8: on a 2xx response `get_for_id` answers with the first actor's id
exactly when that actor's name equals the requested name; a differing
first name or an empty list yields `None`. -/
theorem get_for_id_first_name_match (name : String) (status : Nat)
    (a : Actor) (rest : List Actor) (hs : statusIsSuccess status = true) :
    (a.name = name →
      get_for_id name status (some (a :: rest)) = Except.ok (some a.actor_id)) ∧
    (a.name ≠ name →
      get_for_id name status (some (a :: rest)) = Except.ok none) ∧
    get_for_id name status (some []) = Except.ok none := by
  refine ⟨?_, ?_, ?_⟩
  · intro h
    simp [get_for_id, hs, h]
  · intro h
    simp [get_for_id, hs, h]
  · simp [get_for_id, hs]

/-- Witness for C8: matching name, mismatching name, and empty list at
status 200. -/
theorem get_for_id_first_name_match_witness :
    get_for_id "room" 200 (some [⟨"a1", "room", "k"⟩]) =
      Except.ok (some "a1") ∧
    get_for_id "room" 200 (some [⟨"a1", "other", "k"⟩]) = Except.ok none ∧
    get_for_id "room" 200 (some []) = Except.ok none := by
  have h1 := get_for_id_first_name_match "room" 200 ⟨"a1", "room", "k"⟩ []
    (by decide)
  have h2 := get_for_id_first_name_match "room" 200 ⟨"a1", "other", "k"⟩ []
    (by decide)
  exact ⟨h1.1 rfl, h2.2.1 (by decide), h1.2.2⟩

/-- C10: on a 2xx response with a non-empty `actors` list,
`get_with_key` returns the first actor's id with no name check at all —
whereas `get_for_id`, on the same response, filters by exact name and
returns `None` when the first actor's name differs. -/
theorem get_with_key_skips_name_check (name : String) (status : Nat)
    (a : Actor) (rest : List Actor) (hs : statusIsSuccess status = true) :
    get_with_key status (some (a :: rest)) = Except.ok (some a.actor_id) ∧
    (a.name ≠ name →
      get_for_id name status (some (a :: rest)) = Except.ok none) := by
  constructor
  · simp [get_with_key, hs]
  · intro h
    simp [get_for_id, hs, h]

/-- Witness for C10: the same response (first actor named `"other"`)
resolves under `get_with_key` but not under `get_for_id "room"`. -/
theorem get_with_key_skips_name_check_witness :
    get_with_key 200 (some [⟨"a1", "other", "k"⟩]) =
      Except.ok (some "a1") ∧
    get_for_id "room" 200 (some [⟨"a1", "other", "k"⟩]) = Except.ok none := by
  have h := get_with_key_skips_name_check "room" 200 ⟨"a1", "other", "k"⟩ []
    (by decide)
  exact ⟨h.1, h.2 (by decide)⟩

end Rivet
